import Mathlib

/-!
Verification of the Talking-Buddy (rpi5-chatbot) conversation core.

This file gives a shallow embedding of the parts of the repository that the
verified properties are about, and proves (or refutes) those properties.
Python strings are modeled as `List Char`; stateful objects are modeled as
explicit state records with methods as state-transforming functions; Python
exceptions are modeled with explicit error values.
-/

/- ===================== Sentence segmenter (voice_chatbot.py, SentenceDetector) ===================== -/

/-- Sentence-ending delimiter characters (voice_chatbot.py line 50:
`self.sentence_endings = ('.', '!', '?', ':', ';')`). -/
def sentenceEndings : List Char := ['.', '!', '?', ':', ';']

/-- Whether a character is a sentence-ending delimiter. -/
def isEnding (c : Char) : Bool := sentenceEndings.contains c

/-- Whitespace as stripped by Python's `str.strip()` (default: space, tab,
newline, carriage return; the remaining rarer Python whitespace code points are
irrelevant to the text handled here). -/
def isWs (c : Char) : Bool := c = ' ' || c = '\t' || c = '\n' || c = '\r'

/-- A character that `str.strip()` never removes. -/
def nonWsChar (c : Char) : Bool := !(isWs c)

/-- Python `str.strip()`: drop whitespace from both ends of the string. -/
def stripWs (s : List Char) : List Char :=
  ((s.dropWhile isWs).reverse.dropWhile isWs).reverse

/-- Index of the earliest sentence-ending delimiter in the buffer.  The source
(voice_chatbot.py lines 74-80) computes the minimum over `buffer.find(e)` for
each of the five delimiters; the minimum of the individual first occurrences is
exactly the first index holding any delimiter, which is what this function
returns. -/
def findEndingIdx : List Char → Option Nat
  | [] => none
  | c :: cs => if isEnding c then some 0 else (findEndingIdx cs).map (· + 1)

/-- The boundary-scan loop of `SentenceDetector.add_chunk` (voice_chatbot.py
lines 73-121).  Each loop iteration either emits one sentence and strips it off
the buffer (strictly shortening the buffer, since the emitted span is nonempty)
or breaks and waits for more input; the `while True` loop is therefore modeled
with a fuel argument, and a fuel of `buffer.length + 1` is always sufficient.
An iteration: find the earliest delimiter; if the stripped prefix up to it
meets the minimum length, emit it and strip it off the buffer; otherwise look
for exactly one further delimiter and emit the stripped prefix up to that if it
meets the minimum length; in every other case stop. -/
def scanLoop (minLen : Nat) : Nat → List Char → List (List Char) × List Char
  | 0, buffer => ([], buffer)
  | fuel + 1, buffer =>
    match findEndingIdx buffer with
    | none => ([], buffer)
    | some p =>
      if minLen ≤ (stripWs (buffer.take (p + 1))).length then
        (stripWs (buffer.take (p + 1)) ::
            (scanLoop minLen fuel (stripWs (buffer.drop (p + 1)))).1,
          (scanLoop minLen fuel (stripWs (buffer.drop (p + 1)))).2)
      else if p + 1 < buffer.length then
        match findEndingIdx (buffer.drop (p + 1)) with
        | none => ([], buffer)
        | some q =>
          if minLen ≤ (stripWs (buffer.take (p + 1 + q + 1))).length then
            (stripWs (buffer.take (p + 1 + q + 1)) ::
                (scanLoop minLen fuel (stripWs (buffer.drop (p + 1 + q + 1)))).1,
              (scanLoop minLen fuel (stripWs (buffer.drop (p + 1 + q + 1)))).2)
          else ([], buffer)
      else ([], buffer)

/-- `SentenceDetector.add_chunk` (voice_chatbot.py lines 54-122): append the
chunk to the buffer, then run the boundary-scan loop.  Returns the emitted
sentences and the new buffer. -/
def add_chunk (minLen : Nat) (buffer chunk : List Char) :
    List (List Char) × List Char :=
  scanLoop minLen ((buffer ++ chunk).length + 1) (buffer ++ chunk)

/-- `SentenceDetector.flush` (voice_chatbot.py lines 124-135): if the stripped
buffer is nonempty, return it as the final sentence and clear the buffer;
otherwise return `none` and leave the buffer as is. -/
def flush (buffer : List Char) : Option (List Char) × List Char :=
  if (stripWs buffer).isEmpty then (none, buffer)
  else (some (stripWs buffer), [])

/-- Feed a sequence of chunks through `add_chunk`, starting from the given
buffer (a fresh detector has buffer `[]`, voice_chatbot.py line 49).  Returns
all emitted sentences in emission order and the final buffer. -/
def runChunks (minLen : Nat) : List Char → List (List Char) → List (List Char) × List Char
  | buf, [] => ([], buf)
  | buf, c :: cs =>
    ((add_chunk minLen buf c).1 ++ (runChunks minLen (add_chunk minLen buf c).2 cs).1,
      (runChunks minLen (add_chunk minLen buf c).2 cs).2)

/-- The sentence list contributed by a final `flush` call. -/
def flushEmitted (buffer : List Char) : List (List Char) :=
  match (flush buffer).1 with
  | some s => [s]
  | none => []

/- ===================== Timeout manager (timeout_manager.py) ===================== -/

/-- A Python exception value relevant to the modeled code paths. -/
inductive PyError where
  | typeError (msg : String)
deriving DecidableEq

/-- State of `TimeoutManager` (timeout_manager.py lines 22-47).  The stored
defaults `conversation_timeout` and `idle_timeout` are the constructor
arguments (floats in the source, modeled as rationals); a live
`threading.Timer` is modeled as `some d` where `d` is the duration it was
armed with, and `none` means no live timer. -/
structure TimeoutManager where
  conversation_timeout : ℚ
  idle_timeout : ℚ
  conversation_timer : Option ℚ
  idle_timer : Option ℚ
deriving DecidableEq

/-- `TimeoutManager.__init__` (lines 22-47): store the defaults, no live
timers. -/
def TimeoutManager.init (conv idle : ℚ) : TimeoutManager :=
  { conversation_timeout := conv, idle_timeout := idle,
    conversation_timer := none, idle_timer := none }

/-- `TimeoutManager.start_conversation_timer` (lines 67-87): cancel any live
conversation timer and arm a fresh one with the stored default duration.  The
source method takes no parameter besides `self`. -/
def TimeoutManager.start_conversation_timer (tm : TimeoutManager) : TimeoutManager :=
  { tm with conversation_timer := some tm.conversation_timeout }

/-- `TimeoutManager.reset_conversation_timer` (lines 89-99): cancel without
firing. -/
def TimeoutManager.reset_conversation_timer (tm : TimeoutManager) : TimeoutManager :=
  { tm with conversation_timer := none }

/-- `TimeoutManager.stop_conversation_timer` (lines 101-107). -/
def TimeoutManager.stop_conversation_timer (tm : TimeoutManager) : TimeoutManager :=
  { tm with conversation_timer := none }

/-- `TimeoutManager.start_idle_timer` (lines 109-128). -/
def TimeoutManager.start_idle_timer (tm : TimeoutManager) : TimeoutManager :=
  { tm with idle_timer := some tm.idle_timeout }

/-- `TimeoutManager.reset_idle_timer` (lines 130-140). -/
def TimeoutManager.reset_idle_timer (tm : TimeoutManager) : TimeoutManager :=
  { tm with idle_timer := none }

/-- The keyword-parameter names accepted by
`TimeoutManager.start_conversation_timer`: line 67 declares
`def start_conversation_timer(self):`, so there are none. -/
def startConversationTimerKw : List String := []

/-- Semantics of a Python call `tm.start_conversation_timer(**kwargs)`: a
keyword argument whose name is not among the declared parameters raises
`TypeError` before the method body runs. -/
def callStartConversationTimer (tm : TimeoutManager) (kwargs : List (String × ℚ)) :
    Except PyError TimeoutManager :=
  if kwargs.all (fun kv => startConversationTimerKw.contains kv.1) then
    Except.ok tm.start_conversation_timer
  else
    Except.error (PyError.typeError
      ("start_conversation_timer() got an unexpected keyword argument"))

/- ===================== Chatbot state machine (voice_chatbot.py, VoiceChatbot) ===================== -/

/-- Operating states of the chatbot (managed as strings by
`audio_utils.StateManager`: "idle", "listening", "processing", "speaking",
"light_sleep", "deep_sleep"). -/
inductive OpState where
  | idle
  | listening
  | processing
  | speaking
  | lightSleep
  | deepSleep
deriving DecidableEq

/-- The relevant mutable state of a running `VoiceChatbot` together with its
configuration (voice_chatbot.py lines 212-257): the operating state, the
timeout manager, the one-shot dismissal flag, the capture collaborator's
running/paused flags, and the conversation configuration fields
`interaction_mode` and `smart_mode_followup_timeout` read by
`_handle_streaming_complete`.  Pure external I/O (LEDs, feedback tones, the
ESP32 serial line) is not part of the state. -/
structure VBot where
  opState : OpState
  tm : TimeoutManager
  is_dismissal_pending : Bool
  whisperRunning : Bool
  whisperPaused : Bool
  interaction_mode : String
  smart_mode_followup_timeout : ℚ
deriving DecidableEq

/-- `VoiceChatbot._enter_light_sleep` (lines 871-888): stop speech capture,
stop the conversation timer, start the idle timer, notify the wake sensor
(external I/O, not modeled) and transition to light sleep. -/
def enterLightSleep (bot : VBot) : VBot :=
  { bot with
      whisperRunning := false,
      tm := (bot.tm.stop_conversation_timer).start_idle_timer,
      opState := OpState.lightSleep }

/-- `VoiceChatbot._response_invites_continuation` (lines 704-711): true iff
the stripped response text ends with a question mark. -/
def responseInvitesContinuation (response : List Char) : Bool :=
  (stripWs response).getLast? = some '?'

/-- `VoiceChatbot._handle_streaming_complete` (lines 656-702).  Returns the
state after the call together with `some e` when the call raises the Python
exception `e` (the mutations made before the raise stay in place).  In "smart"
mode with a question-ending response the source calls
`start_conversation_timer(timeout=self.config.conversation.smart_mode_followup_timeout)`
(lines 689-691); that call is modeled through the keyword-argument call
semantics `callStartConversationTimer`. -/
def handleStreamingComplete (bot : VBot) (response : List Char) : VBot × Option PyError :=
  if bot.is_dismissal_pending then
    (enterLightSleep { bot with is_dismissal_pending := false }, none)
  else if bot.interaction_mode = "single-shot" then
    (enterLightSleep bot, none)
  else if bot.interaction_mode = "conversation" then
    ({ bot with
        whisperPaused := false
        opState := OpState.listening
        tm := bot.tm.start_conversation_timer }, none)
  else if bot.interaction_mode = "smart" then
    if responseInvitesContinuation response then
      match callStartConversationTimer bot.tm
          [(("timeout"), bot.smart_mode_followup_timeout)] with
      | Except.ok tm' =>
        ({ bot with
            whisperPaused := false
            opState := OpState.listening
            tm := tm' }, none)
      | Except.error e =>
        ({ bot with whisperPaused := false, opState := OpState.listening }, some e)
    else (enterLightSleep bot, none)
  else
    ({ bot with
        whisperPaused := false
        opState := OpState.listening
        tm := bot.tm.start_conversation_timer }, none)

/-- The `except` clause of `_handle_user_input_streaming` (lines 649-654),
which catches any exception raised while handling the turn, including one
raised by `_handle_streaming_complete`: stop queue playback and set the state
to listening.  This composition gives the state observed after the turn. -/
def streamingCompleteObserved (bot : VBot) (response : List Char) : VBot :=
  match handleStreamingComplete bot response with
  | (b, none) => b
  | (b, some _) => { b with opState := OpState.listening }

/-- Externally observable calls made by the wake-word handler, in order. -/
inductive WakeAct where
  | playFeedback (kind : String)
  | resetIdleTimer
  | startLoadingTone
  | stopLoadingTone
  | wakeBackend (succeeded : Bool)
  | startCapture (succeeded : Bool)
deriving DecidableEq

/-- `SleepManager.wake_from_deep_sleep` (sleep_manager.py lines 96-160) with
its environment abstracted as oracles: `is_ollama_running` is the cached
status checked on entry (line 107), `startServiceOk` is whether one of the
`systemctl start` attempts exits with code 0 (lines 114-133), and
`responsiveWithinTimeout` is whether the polling loop (lines 139-150) observes
a responsive backend before the timeout elapses.  The method reports failure
to its caller by returning `False` (lines 131-133 and 152-153) and never
retries the start. -/
def wake_from_deep_sleep (is_ollama_running startServiceOk responsiveWithinTimeout : Bool) :
    Bool :=
  if is_ollama_running then true
  else if !startServiceOk then false
  else responsiveWithinTimeout

/-- Tail of `VoiceChatbot._on_wake_word_detected` (lines 852-859): start
speech capture if it is not already running, aborting the transition when the
start fails, then transition to listening. -/
def wakeStartCapture (bot : VBot) (whisperStartOk : Bool) (acts : List WakeAct) :
    VBot × List WakeAct :=
  if !bot.whisperRunning then
    if whisperStartOk then
      ({ bot with whisperRunning := true, opState := OpState.listening },
        acts ++ [WakeAct.startCapture true])
    else (bot, acts ++ [WakeAct.startCapture false])
  else ({ bot with opState := OpState.listening }, acts)

/-- `VoiceChatbot._on_wake_word_detected` (lines 820-859).  `backendWakeOk` is
the result of the `sleep_manager.wake_from_deep_sleep` call made when waking
from deep sleep; `whisperStartOk` is whether `whisper_stt.start()` succeeds.
Returns the new state and the wake actions performed, in order.  A wake signal
in an active conversation state returns immediately (lines 824-827). -/
def onWakeWordDetected (bot : VBot) (backendWakeOk whisperStartOk : Bool) :
    VBot × List WakeAct :=
  if bot.opState = OpState.listening ∨ bot.opState = OpState.processing ∨
      bot.opState = OpState.speaking then
    (bot, [])
  else
    let bot1 : VBot := { bot with tm := bot.tm.reset_idle_timer }
    let acts1 : List WakeAct := [WakeAct.playFeedback ("wake"), WakeAct.resetIdleTimer]
    if bot.opState = OpState.deepSleep then
      if !backendWakeOk then
        (bot1, acts1 ++ [WakeAct.startLoadingTone, WakeAct.wakeBackend false,
          WakeAct.stopLoadingTone])
      else
        wakeStartCapture bot1 whisperStartOk
          (acts1 ++ [WakeAct.startLoadingTone, WakeAct.wakeBackend true,
            WakeAct.stopLoadingTone, WakeAct.playFeedback ("ready")])
    else
      wakeStartCapture bot1 whisperStartOk acts1

/- ===================== Playback queue sessions (audio_utils.py, AudioPlayer) ===================== -/

/-- Worker control point in `AudioPlayer._queue_processor_thread`: `main` is
the top of the polling loop; `grace` is the point after the first completion
check has passed, during the 0.2 s grace sleep (line 387), before the
re-check. -/
inductive WPhase where
  | main
  | grace
deriving DecidableEq

/-- One playback session of the `AudioPlayer` queue system: the FIFO of queued
items (file handles abstracted to numbers), the session counters and flags
reset by `start_queue_playback` (audio_utils.py lines 274-291), whether the
`on_queue_complete` callback is still registered (`cb`), how often it has been
invoked (`fired`, a ghost counter), whether the queue is active, and the
worker's control point. -/
structure QSession where
  queue : List Nat
  generation_complete : Bool
  enqueued_count : Nat
  played_count : Nat
  cb : Bool
  fired : Nat
  active : Bool
  phase : WPhase
deriving DecidableEq

/-- Session state right after `start_queue_playback` (lines 274-291) and the
caller's registration of `on_queue_complete` (voice_chatbot.py lines
592-596). -/
def qInit : QSession :=
  { queue := [], generation_complete := false, enqueued_count := 0,
    played_count := 0, cb := true, fired := 0, active := true,
    phase := WPhase.main }

/-- Interleaved small-step semantics of one playback session: producer steps
(`enqueue` from `enqueue_audio` lines 257-272, `signalComplete` from
`signal_generation_complete` lines 327-333, `stop` from `stop_queue_playback`
lines 293-325) and worker steps from `_queue_processor_thread` lines 335-408
(`pop` dequeues and plays the head item and increments the played counter;
`emptyPass` is the first completion check on an empty read, lines 381-384;
`graceFire` is the re-check after the grace sleep succeeding and invoking the
callback, after which the callback is deregistered, lines 389-398; `graceFail`
is that re-check failing, line 399). -/
inductive QStep : QSession → QSession → Prop where
  | enqueue (s : QSession) (i : Nat) :
      QStep s { s with
        queue := s.queue ++ [i]
        enqueued_count := s.enqueued_count + 1 }
  | signalComplete (s : QSession) :
      QStep s { s with generation_complete := true }
  | stop (s : QSession) (clear : Bool) :
      QStep s { s with
        active := false
        queue := if clear then [] else s.queue }
  | pop (s : QSession) (i : Nat) (rest : List Nat) :
      s.phase = WPhase.main → s.active = true → s.queue = i :: rest →
      QStep s { s with queue := rest, played_count := s.played_count + 1 }
  | emptyPass (s : QSession) :
      s.phase = WPhase.main → s.active = true → s.generation_complete = true →
      s.enqueued_count ≤ s.played_count → s.queue = [] →
      QStep s { s with phase := WPhase.grace }
  | graceFire (s : QSession) :
      s.phase = WPhase.grace → s.enqueued_count ≤ s.played_count →
      s.queue = [] → s.cb = true →
      QStep s { s with fired := s.fired + 1, cb := false, phase := WPhase.main }
  | graceFail (s : QSession) :
      s.phase = WPhase.grace →
      ¬(s.enqueued_count ≤ s.played_count ∧ s.queue = [] ∧ s.cb = true) →
      QStep s { s with phase := WPhase.main }

/-- States reachable during one playback session. -/
def QReachable (s : QSession) : Prop := Relation.ReflTransGen QStep qInit s

/- ===================== Dismissal detector (dismissal_detector.py) ===================== -/

/-- Accented letters occurring in the Portuguese dismissal patterns; Python's
`re` (Unicode mode) treats them as word characters. -/
def accentedChars : List Char :=
  ['á', 'é', 'í', 'ó', 'ú', 'â', 'ê', 'ô', 'ã', 'õ', 'ç']

/-- Word character for the `\b` word-boundary assertion: `[a-zA-Z0-9_]` plus
the Unicode letters appearing in the texts handled here. -/
def isWordChar (c : Char) : Bool :=
  c.isAlpha || c.isDigit || c = '_' || accentedChars.contains c

/-- Abstract syntax of the regular-expression subset used by the dismissal
patterns: single characters and character classes, `\s+`, `\b`, `$`,
concatenation and optional groups `(...)?`. -/
inductive Rx where
  | eps
  | chOf (cs : List Char)
  | wsPlus
  | wordB
  | lineEnd
  | seq (a b : Rx)
  | opt (a : Rx)

/-- Possible remainders after consuming one-or-more leading whitespace
characters (`\s+`). -/
def wsTails : List Char → List (List Char)
  | [] => []
  | c :: cs => if isWs c then cs :: wsTails cs else []

/-- Matching states `(previous character is a word character, remaining
input)` reachable after matching the pattern at the current position. -/
def rxMatch : Rx → Bool → List Char → List (Bool × List Char)
  | Rx.eps, pw, s => [(pw, s)]
  | Rx.chOf _, _, [] => []
  | Rx.chOf cs, _, c :: rest =>
    if cs.contains c then [(isWordChar c, rest)] else []
  | Rx.wsPlus, _, s => (wsTails s).map (fun r => (false, r))
  | Rx.wordB, pw, s =>
    if pw ≠ (match s with | [] => false | c :: _ => isWordChar c) then [(pw, s)]
    else []
  | Rx.lineEnd, pw, s => if s.isEmpty then [(pw, s)] else []
  | Rx.seq a b, pw, s => (rxMatch a pw s).flatMap (fun pr => rxMatch b pr.1 pr.2)
  | Rx.opt a, pw, s => (pw, s) :: rxMatch a pw s

/-- `re.search` semantics for the subset: try to match at every start
position, threading whether the previous character is a word character. -/
def rxSearchFrom (r : Rx) : Bool → List Char → Bool
  | pw, [] => !(rxMatch r pw []).isEmpty
  | pw, c :: rest =>
    !(rxMatch r pw (c :: rest)).isEmpty || rxSearchFrom r (isWordChar c) rest

/-- `pattern.search(text)` as a Boolean. -/
def rxSearch (r : Rx) (s : List Char) : Bool := rxSearchFrom r false s

/-- A literal word (the patterns are written in lowercase, matching the
lowercased input under `re.IGNORECASE`). -/
def litRx (w : List Char) : Rx := w.foldr (fun c r => Rx.seq (Rx.chOf [c]) r) Rx.eps

/-- Sequence a list of regex fragments. -/
def seqRx (l : List Rx) : Rx := l.foldr Rx.seq Rx.eps

/-- The Brazilian-Portuguese dismissal patterns (dismissal_detector.py lines
17-36), translated pattern by pattern. -/
def ptDismissalPatterns : List Rx :=
  [ seqRx [Rx.wordB, litRx (("tchau").data), Rx.wordB],
    seqRx [Rx.wordB, litRx (("at").data), Rx.chOf ['e', 'é'], Rx.wsPlus,
      litRx (("logo").data), Rx.wordB],
    seqRx [Rx.wordB, litRx (("at").data), Rx.chOf ['e', 'é'], Rx.wsPlus,
      litRx (("mais").data), Rx.wordB],
    seqRx [Rx.wordB, litRx (("adeus").data), Rx.wordB],
    seqRx [Rx.wordB, litRx (("pode").data), Rx.wsPlus, litRx (("ir").data), Rx.wordB],
    seqRx [Rx.wordB, litRx (("pode").data), Rx.wsPlus, litRx (("desligar").data), Rx.wordB],
    seqRx [Rx.wordB, litRx (("valeu").data), Rx.wordB],
    seqRx [Rx.wordB, litRx (("falou").data), Rx.wordB],
    seqRx [Rx.wordB, litRx (("at").data), Rx.chOf ['e', 'é'], Rx.wsPlus,
      litRx (("depois").data), Rx.wordB],
    seqRx [Rx.wordB, litRx (("at").data), Rx.chOf ['e', 'é'], Rx.wsPlus,
      litRx (("breve").data), Rx.wordB],
    seqRx [Rx.wordB, litRx (("at").data), Rx.chOf ['e', 'é'], Rx.wsPlus,
      Rx.opt (seqRx [Rx.chOf ['a'], Rx.wsPlus]), litRx (("pr").data),
      Rx.chOf ['o', 'ó'], litRx (("xima").data), Rx.wordB],
    seqRx [Rx.wordB, litRx (("vai").data), Rx.wsPlus, litRx (("embora").data), Rx.wordB],
    seqRx [Rx.wordB, litRx (("pode").data), Rx.wsPlus, litRx (("parar").data), Rx.wordB],
    seqRx [Rx.wordB, litRx (("pode").data), Rx.wsPlus, litRx (("dormir").data), Rx.wordB],
    seqRx [Rx.wordB, litRx (("vai").data), Rx.wsPlus, litRx (("dormir").data), Rx.wordB],
    seqRx [Rx.wordB, litRx (("vou").data), Rx.wsPlus, litRx (("desligar").data), Rx.wordB],
    seqRx [Rx.wordB, litRx (("est").data), Rx.chOf ['a', 'á'], Rx.wsPlus,
      litRx (("bom").data), Rx.wordB],
    seqRx [Rx.wordB, Rx.chOf ['e', 'é'], Rx.wsPlus, litRx (("isso").data), Rx.wsPlus,
      Rx.opt (seqRx [Rx.chOf ['a'], Rx.chOf ['i', 'í']]), Rx.lineEnd] ]

/-- The English dismissal patterns (dismissal_detector.py lines 39-56),
translated pattern by pattern. -/
def enDismissalPatterns : List Rx :=
  [ seqRx [Rx.wordB, litRx (("goodbye").data), Rx.wordB],
    seqRx [Rx.wordB, litRx (("bye").data), Rx.wordB],
    seqRx [Rx.wordB, litRx (("see").data), Rx.wsPlus, litRx (("you").data), Rx.wordB],
    seqRx [Rx.wordB, litRx (("that").data), Rx.opt (Rx.chOf ['\'']), Rx.chOf ['s'],
      Rx.wsPlus, litRx (("all").data), Rx.wordB],
    seqRx [Rx.wordB, litRx (("thank").data), Rx.opt (Rx.chOf ['s']), Rx.wsPlus,
      litRx (("bye").data), Rx.wordB],
    seqRx [Rx.wordB, litRx (("farewell").data), Rx.wordB],
    seqRx [Rx.wordB, litRx (("later").data), Rx.wordB],
    seqRx [Rx.wordB, litRx (("catch").data), Rx.wsPlus, litRx (("you").data),
      Rx.wsPlus, litRx (("later").data), Rx.wordB],
    seqRx [Rx.wordB, litRx (("gotta").data), Rx.wsPlus, litRx (("go").data), Rx.wordB],
    seqRx [Rx.wordB, litRx (("have").data), Rx.wsPlus, litRx (("to").data),
      Rx.wsPlus, litRx (("go").data), Rx.wordB],
    seqRx [Rx.wordB, litRx (("take").data), Rx.wsPlus, litRx (("care").data), Rx.wordB],
    seqRx [Rx.wordB, litRx (("good").data), Rx.wsPlus, litRx (("night").data), Rx.wordB],
    seqRx [Rx.wordB, litRx (("sleep").data), Rx.wsPlus, litRx (("now").data), Rx.wordB],
    seqRx [Rx.wordB, litRx (("shut").data), Rx.wsPlus, litRx (("down").data), Rx.wordB],
    seqRx [Rx.wordB, litRx (("turn").data), Rx.wsPlus, litRx (("off").data), Rx.wordB],
    seqRx [Rx.wordB, litRx (("stop").data), Rx.wsPlus, litRx (("listening").data), Rx.wordB] ]

/-- `DismissalDetector` state: the two pattern lists (`add_custom_pattern`,
lines 110-127, can extend them; `compiled_patterns` is always the compilation
of their concatenation). -/
structure DismissalDetector where
  portuguese_patterns : List Rx
  english_patterns : List Rx

/-- `DismissalDetector.__init__` (lines 15-62). -/
def DismissalDetector.init : DismissalDetector :=
  { portuguese_patterns := ptDismissalPatterns,
    english_patterns := enDismissalPatterns }

/-- The compiled pattern list (lines 58-62). -/
def DismissalDetector.compiled_patterns (d : DismissalDetector) : List Rx :=
  d.portuguese_patterns ++ d.english_patterns

/-- Python `str.lower()`; ASCII case folding suffices for the pattern
alphabet. -/
def lowerStr (s : List Char) : List Char := s.map Char.toLower

/-- `DismissalDetector.is_dismissal` (lines 64-84): `False` on falsy (empty)
text without touching the patterns; otherwise strip and lowercase the text and
search it against every compiled pattern.  The method only reads the detector,
so the call is modeled as returning the flag together with the (unchanged)
detector state after the call. -/
def is_dismissal (d : DismissalDetector) (text : List Char) : Bool × DismissalDetector :=
  if text.isEmpty then (false, d)
  else (d.compiled_patterns.any (fun p => rxSearch p (lowerStr (stripWs text))), d)

/- ===================== Concrete test fixtures and invariants ===================== -/

/-- The timeout manager as constructed by `VoiceChatbot.__init__`
(voice_chatbot.py lines 239-242): 30 s conversation timeout, 300 s idle
timeout. -/
def tmDefault : TimeoutManager := TimeoutManager.init 30 300

/-- A chatbot state in "smart" interaction mode at the point where
`_handle_streaming_complete` runs (response just finished playing). -/
def smartBot : VBot :=
  { opState := OpState.speaking
    tm := tmDefault
    is_dismissal_pending := false
    whisperRunning := true
    whisperPaused := true
    interaction_mode := "smart"
    smart_mode_followup_timeout := 10 }

/-- Like `smartBot` but in "conversation" mode with a pending dismissal. -/
def convBotPending : VBot :=
  { smartBot with
      interaction_mode := "conversation"
      is_dismissal_pending := true }

/-- A chatbot state in active conversation (listening). -/
def listenBot : VBot := { smartBot with opState := OpState.listening }

/-- A chatbot state in deep sleep (capture stopped). -/
def deepBot : VBot :=
  { smartBot with
      opState := OpState.deepSleep
      whisperRunning := false }

/-- Session invariant for the playback queue: the callback fires at most once
(`fired` plus the still-registered callback never exceed one), and the worker
only ever sits in the grace window with `generation_complete` set. -/
def QInv (s : QSession) : Prop :=
  s.fired + (if s.cb then 1 else 0) ≤ 1 ∧
    (s.phase = WPhase.grace → s.generation_complete = true)

/- ===================== Segmenter lemmas ===================== -/

theorem findEndingIdx_lt_length {s : List Char} {p : Nat}
    (h : findEndingIdx s = some p) : p < s.length := by
  induction s generalizing p with
  | nil => simp [findEndingIdx] at h
  | cons c cs ih =>
    rw [findEndingIdx] at h
    by_cases hc : isEnding c
    · simp [hc] at h
      simp [List.length_cons]
      omega
    · simp [hc] at h
      obtain ⟨q, hq, rfl⟩ := h
      have := ih hq
      simp
      omega

theorem stripWs_length_le (s : List Char) : (stripWs s).length ≤ s.length := by
  unfold stripWs
  have h1 : (s.dropWhile isWs).length ≤ s.length :=
    (List.dropWhile_sublist (p := isWs) (l := s)).length_le
  have h2 : ((s.dropWhile isWs).reverse.dropWhile isWs).length ≤
      (s.dropWhile isWs).reverse.length :=
    (List.dropWhile_sublist (p := isWs) (l := (s.dropWhile isWs).reverse)).length_le
  simp at h2 ⊢
  omega

theorem filter_dropWhileWs (s : List Char) :
    (s.dropWhile isWs).filter nonWsChar = s.filter nonWsChar := by
  induction s with
  | nil => rfl
  | cons c cs ih =>
    by_cases h : isWs c
    · have hn : nonWsChar c = false := by simp [nonWsChar, h]
      simp [List.dropWhile_cons, h, List.filter_cons, hn, ih]
    · simp [List.dropWhile_cons, h]

theorem filter_stripWs (s : List Char) :
    (stripWs s).filter nonWsChar = s.filter nonWsChar := by
  unfold stripWs
  rw [List.filter_reverse, filter_dropWhileWs, List.filter_reverse,
    List.reverse_reverse, filter_dropWhileWs]

theorem scanLoop_conservation (minLen : Nat) :
    ∀ (fuel : Nat) (buffer : List Char), buffer.length < fuel →
      (((scanLoop minLen fuel buffer).1.flatten ++ (scanLoop minLen fuel buffer).2).filter nonWsChar)
        = buffer.filter nonWsChar := by
  intro fuel
  induction fuel with
  | zero => intro b hb; omega
  | succ f ih =>
    intro b hb
    rw [scanLoop]
    cases hfind : findEndingIdx b with
    | none => simp
    | some p =>
      simp only []
      have hp : p < b.length := findEndingIdx_lt_length hfind
      by_cases h1 : minLen ≤ (stripWs (b.take (p + 1))).length
      · rw [if_pos h1]
        have hlt : (stripWs (b.drop (p + 1))).length < f := by
          have h2 := stripWs_length_le (b.drop (p + 1))
          rw [List.length_drop] at h2
          omega
        have IH := ih (stripWs (b.drop (p + 1))) hlt
        rw [List.filter_append, filter_stripWs] at IH
        simp only [List.flatten_cons, List.append_assoc, List.filter_append]
        rw [IH, filter_stripWs, ← List.filter_append, List.take_append_drop]
      · rw [if_neg h1]
        by_cases h2 : p + 1 < b.length
        · rw [if_pos h2]
          cases hfind2 : findEndingIdx (b.drop (p + 1)) with
          | none => simp
          | some q =>
            simp only []
            have hq : q < (b.drop (p + 1)).length := findEndingIdx_lt_length hfind2
            rw [List.length_drop] at hq
            by_cases h3 : minLen ≤ (stripWs (b.take (p + 1 + q + 1))).length
            · rw [if_pos h3]
              have hlt : (stripWs (b.drop (p + 1 + q + 1))).length < f := by
                have h4 := stripWs_length_le (b.drop (p + 1 + q + 1))
                rw [List.length_drop] at h4
                omega
              have IH := ih (stripWs (b.drop (p + 1 + q + 1))) hlt
              rw [List.filter_append, filter_stripWs] at IH
              simp only [List.flatten_cons, List.append_assoc, List.filter_append]
              rw [IH, filter_stripWs, ← List.filter_append, List.take_append_drop]
            · rw [if_neg h3]
              simp
        · rw [if_neg h2]
          simp

theorem scanLoop_min_length (minLen : Nat) :
    ∀ (fuel : Nat) (buffer : List Char) (s : List Char),
      s ∈ (scanLoop minLen fuel buffer).1 → minLen ≤ s.length := by
  intro fuel
  induction fuel with
  | zero => intro b s hs; simp [scanLoop] at hs
  | succ f ih =>
    intro b s hs
    rw [scanLoop] at hs
    cases hfind : findEndingIdx b with
    | none => rw [hfind] at hs; simp at hs
    | some p =>
      rw [hfind] at hs
      simp only [] at hs
      by_cases h1 : minLen ≤ (stripWs (b.take (p + 1))).length
      · rw [if_pos h1] at hs
        simp only [List.mem_cons] at hs
        rcases hs with rfl | hs
        · exact h1
        · exact ih _ s hs
      · rw [if_neg h1] at hs
        by_cases h2 : p + 1 < b.length
        · rw [if_pos h2] at hs
          cases hfind2 : findEndingIdx (b.drop (p + 1)) with
          | none => rw [hfind2] at hs; simp at hs
          | some q =>
            rw [hfind2] at hs
            simp only [] at hs
            by_cases h3 : minLen ≤ (stripWs (b.take (p + 1 + q + 1))).length
            · rw [if_pos h3] at hs
              simp only [List.mem_cons] at hs
              rcases hs with rfl | hs
              · exact h3
              · exact ih _ s hs
            · rw [if_neg h3] at hs
              simp at hs
        · rw [if_neg h2] at hs
          simp at hs


theorem add_chunk_conservation (m : Nat) (buf chunk : List Char) :
    (((add_chunk m buf chunk).1.flatten ++ (add_chunk m buf chunk).2).filter nonWsChar)
      = (buf ++ chunk).filter nonWsChar :=
  scanLoop_conservation m ((buf ++ chunk).length + 1) (buf ++ chunk) (Nat.lt_succ_self _)

theorem runChunks_conservation (m : Nat) :
    ∀ (cs : List (List Char)) (buf : List Char),
      (((runChunks m buf cs).1.flatten ++ (runChunks m buf cs).2).filter nonWsChar)
        = (buf ++ cs.flatten).filter nonWsChar := by
  intro cs
  induction cs with
  | nil => intro buf; simp [runChunks]
  | cons c cs ih =>
    intro buf
    rw [runChunks]
    simp only []
    have hadd := add_chunk_conservation m buf c
    rw [List.filter_append] at hadd
    have hih := ih (add_chunk m buf c).2
    rw [List.filter_append] at hih
    simp only [List.flatten_append, List.filter_append, List.append_assoc,
      List.flatten_cons]
    rw [hih, List.filter_append, ← List.append_assoc, hadd, ← List.filter_append,
      ← List.filter_append, List.append_assoc, List.filter_append]

theorem filter_flushEmitted (b : List Char) :
    (((flushEmitted b).flatten).filter nonWsChar) = b.filter nonWsChar := by
  unfold flushEmitted flush
  by_cases hb : (stripWs b).isEmpty
  · rw [List.isEmpty_iff] at hb
    simp [hb, ← filter_stripWs b]
  · simp only [hb, if_neg]
    simp only [Bool.false_eq_true, if_false, List.flatten_cons, List.flatten_nil,
      List.append_nil]
    exact filter_stripWs b

theorem qInv_init : QInv qInit := by
  constructor
  · simp [qInit]
  · intro h
    simp [qInit] at h

theorem qInv_step {s s' : QSession} (hinv : QInv s) (hstep : QStep s s') : QInv s' := by
  obtain ⟨h1, h2⟩ := hinv
  cases hstep with
  | enqueue i => exact ⟨h1, h2⟩
  | signalComplete => exact ⟨h1, fun _ => rfl⟩
  | stop clear => exact ⟨h1, h2⟩
  | pop i rest hph hact hq => exact ⟨h1, h2⟩
  | emptyPass hph hact hgen hle hq => exact ⟨h1, fun _ => hgen⟩
  | graceFire hph hle hq hcb =>
    constructor
    · rw [hcb] at h1
      simp at h1 ⊢
      omega
    · intro h
      simp at h
  | graceFail hph hcond =>
    constructor
    · exact h1
    · intro h
      simp at h

theorem qInv_reachable {s : QSession} (h : QReachable s) : QInv s := by
  unfold QReachable at h
  induction h with
  | refl => exact qInv_init
  | tail _ hbc ih => exact qInv_step ih hbc

/- ===================== Claim theorems ===================== -/

/-- C1 (counterexample): the exact-concatenation invariant fails on the code.
Feeding the single fragment `"aaaaaaaaaaaaaaaaaaaaaaaaaaaaaa. b"` to a fresh segmenter with the
default minimum length 30 emits the sentence `"aaaaaaaaaaaaaaaaaaaaaaaaaaaaaa."` and leaves buffer
`"b"`; `add_chunk` strips the space between them (voice_chatbot.py line 93), so
emitted sentences plus the flushed remainder concatenate to a string missing
that space. -/
theorem segmenter_exact_conservation_cex :
    ((runChunks 30 [] [(("aaaaaaaaaaaaaaaaaaaaaaaaaaaaaa. b").data)]).1
        ++ flushEmitted (runChunks 30 [] [(("aaaaaaaaaaaaaaaaaaaaaaaaaaaaaa. b").data)]).2).flatten
      ≠ ([(("aaaaaaaaaaaaaaaaaaaaaaaaaaaaaa. b").data)] : List (List Char)).flatten := by
  decide

/-- C1 (amended): for every sequence of text fragments fed to the segmenter,
the concatenation of all emitted sentences plus the final flushed remainder
equals the concatenation of the input fragments up to whitespace: restricted
to non-whitespace characters the two are equal, so no non-whitespace character
is ever dropped or duplicated (whitespace can be dropped at the trimmed
sentence boundaries). -/
theorem segmenter_conserves_text_modulo_ws (m : Nat) (chunks : List (List Char)) :
    ((((runChunks m [] chunks).1
          ++ flushEmitted (runChunks m [] chunks).2).flatten).filter nonWsChar)
      = (chunks.flatten).filter nonWsChar := by
  have h := runChunks_conservation m chunks []
  rw [List.flatten_append, List.filter_append, filter_flushEmitted,
    ← List.filter_append, h]
  simp

/-- C2 (counterexample): the claim "repeat until a long-enough prefix is found
or no more delimiters remain" fails: the code tries only one further delimiter
(voice_chatbot.py lines 95-117) and then breaks.  On the buffer
`"a.b.cccccccccccccccccccccccccccccc."` with minimum length 30, the delimiter-terminated prefix up to
index 34 has (stripped) length 35 ≥ 30, yet `add_chunk` emits nothing because
the prefixes up to the first and the second delimiter are both too short. -/
theorem add_chunk_long_prefix_without_emission :
    (add_chunk 30 [] (("a.b.cccccccccccccccccccccccccccccc.").data)).1 = [] ∧
      ∃ p, p < (("a.b.cccccccccccccccccccccccccccccc.").data).length ∧ isEnding ((("a.b.cccccccccccccccccccccccccccccc.").data).getD p ' ') = true ∧
        30 ≤ (stripWs ((("a.b.cccccccccccccccccccccccccccccc.").data).take (p + 1))).length := by
  constructor
  · decide
  · exact ⟨34, by decide, by decide, by decide⟩

/-- C2 (amended): when the prefix up to the earliest delimiter is too short,
`add_chunk` searches for exactly one further delimiter and attempts combining;
it emits at least one sentence whenever the stripped prefix up to the first
delimiter, or the stripped prefix up to the second delimiter, meets the
minimum length (but it does not repeat the search beyond the second
delimiter). -/
theorem add_chunk_emits_within_two_endings (m : Nat) (buffer chunk : List Char) (p : Nat)
    (hfind : findEndingIdx (buffer ++ chunk) = some p)
    (h : m ≤ (stripWs ((buffer ++ chunk).take (p + 1))).length ∨
      ∃ q, findEndingIdx ((buffer ++ chunk).drop (p + 1)) = some q ∧
        m ≤ (stripWs ((buffer ++ chunk).take (p + 1 + q + 1))).length) :
    (add_chunk m buffer chunk).1 ≠ [] := by
  unfold add_chunk
  rw [scanLoop, hfind]
  simp only []
  by_cases h1 : m ≤ (stripWs ((buffer ++ chunk).take (p + 1))).length
  · rw [if_pos h1]
    simp
  · rcases h with h | ⟨q, hq, hlen⟩
    · exact absurd h h1
    · have hplt : p + 1 < (buffer ++ chunk).length := by
        have := findEndingIdx_lt_length hq
        rw [List.length_drop] at this
        omega
      rw [if_neg h1, if_pos hplt, hq]
      simp only []
      rw [if_pos hlen]
      simp

/-- C2 (witness): concrete instance of `add_chunk_emits_within_two_endings`. -/
theorem add_chunk_emits_within_two_endings_witness :
    (add_chunk 3 [] (("ab.").data)).1 ≠ [] :=
  add_chunk_emits_within_two_endings 3 [] (("ab.").data) 2 (by decide)
    (Or.inl (by decide))

/-- C3: `TimeoutManager.start_conversation_timer` accepts no `timeout` keyword
parameter, so the call `start_conversation_timer(timeout=...)` made by
`_handle_streaming_complete` in smart mode (voice_chatbot.py lines 689-691)
raises `TypeError` instead of arming a timer with the given duration. -/
theorem start_conversation_timer_rejects_timeout_kwarg (tm : TimeoutManager) (v : ℚ) :
    callStartConversationTimer tm [(("timeout"), v)] =
      Except.error (PyError.typeError
        ("start_conversation_timer() got an unexpected keyword argument")) := by
  rfl

/-- C4: along every interleaving of producer and worker steps in a playback
session, the queue-complete callback fires at most once, and any step that
fires it happens from the post-grace re-check point with the queue observed
empty, the played count at least the enqueued count, `generation_complete`
set, and the callback still registered (it is deregistered by the firing
step). -/
theorem queue_complete_fires_at_most_once (s : QSession) (hs : QReachable s) :
    s.fired ≤ 1 ∧
      ∀ s' : QSession, QStep s s' → s.fired < s'.fired →
        s.phase = WPhase.grace ∧ s.queue = [] ∧
          s.enqueued_count ≤ s.played_count ∧ s.generation_complete = true ∧
          s.cb = true ∧ s'.cb = false := by
  obtain ⟨h1, h2⟩ := qInv_reachable hs
  constructor
  · by_cases hc : s.cb = true
    · rw [if_pos hc] at h1
      omega
    · rw [if_neg hc] at h1
      omega
  · intro s' hstep hf
    cases hstep with
    | enqueue i => exact absurd hf (lt_irrefl _)
    | signalComplete => exact absurd hf (lt_irrefl _)
    | stop clear => exact absurd hf (lt_irrefl _)
    | pop i rest hph hact hq => exact absurd hf (lt_irrefl _)
    | emptyPass hph hact hgen hle hq => exact absurd hf (lt_irrefl _)
    | graceFire hph hle hq hcb => exact ⟨hph, hq, hle, h2 hph, hcb, rfl⟩
    | graceFail hph hcond => exact absurd hf (lt_irrefl _)

/-- C4 (witness): the theorem applied to the freshly started session. -/
theorem queue_complete_fires_at_most_once_witness :
    qInit.fired ≤ 1 ∧
      ∀ s' : QSession, QStep qInit s' → qInit.fired < s'.fired →
        qInit.phase = WPhase.grace ∧ qInit.queue = [] ∧
          qInit.enqueued_count ≤ qInit.played_count ∧
          qInit.generation_complete = true ∧ qInit.cb = true ∧ s'.cb = false :=
  queue_complete_fires_at_most_once qInit Relation.ReflTransGen.refl

/-- C5: if the dismissal-pending flag is set when the streamed response
finishes, `_handle_streaming_complete` transitions to light sleep and clears
the flag, whatever the configured interaction policy, and raises no
exception. -/
theorem dismissal_pending_forces_light_sleep (bot : VBot) (response : List Char)
    (h : bot.is_dismissal_pending = true) :
    (handleStreamingComplete bot response).1.opState = OpState.lightSleep ∧
      (handleStreamingComplete bot response).1.is_dismissal_pending = false ∧
      (handleStreamingComplete bot response).2 = none := by
  unfold handleStreamingComplete
  rw [if_pos h]
  exact ⟨rfl, rfl, rfl⟩

/-- C5 (witness): concrete instance under the "conversation" policy. -/
theorem dismissal_pending_forces_light_sleep_witness :
    (handleStreamingComplete convBotPending (("Tchau!").data)).1.opState =
        OpState.lightSleep ∧
      (handleStreamingComplete convBotPending
          (("Tchau!").data)).1.is_dismissal_pending = false ∧
      (handleStreamingComplete convBotPending (("Tchau!").data)).2 = none :=
  dismissal_pending_forces_light_sleep convBotPending (("Tchau!").data) rfl

/-- C6: a wake signal delivered while the state is listening, processing or
speaking leaves the state unchanged and performs no wake action at all. -/
theorem wake_signal_ignored_when_active (bot : VBot) (backendWakeOk whisperStartOk : Bool)
    (h : bot.opState = OpState.listening ∨ bot.opState = OpState.processing ∨
      bot.opState = OpState.speaking) :
    onWakeWordDetected bot backendWakeOk whisperStartOk = (bot, []) := by
  unfold onWakeWordDetected
  rw [if_pos h]

/-- C6 (witness): concrete instance in the listening state. -/
theorem wake_signal_ignored_when_active_witness :
    onWakeWordDetected listenBot true true = (listenBot, []) :=
  wake_signal_ignored_when_active listenBot true true (Or.inl rfl)

/-- C7 (code evaluated at the failing input): under the "smart" policy with a
question-ending response, `_handle_streaming_complete` raises `TypeError`
(since `start_conversation_timer` accepts no `timeout` keyword); the streaming
handler's exception clause leaves the system listening but with no follow-up
conversation timer armed — contrary to the claimed "Listening with the shorter
follow-up timer armed".  The non-question side works: the system enters light
sleep. -/
theorem smart_mode_followup_timer_crash :
    (handleStreamingComplete smartBot (("Tudo bem?").data)).2 =
        some (PyError.typeError
          ("start_conversation_timer() got an unexpected keyword argument")) ∧
      (streamingCompleteObserved smartBot (("Tudo bem?").data)).opState =
        OpState.listening ∧
      (streamingCompleteObserved smartBot
          (("Tudo bem?").data)).tm.conversation_timer = none ∧
      (streamingCompleteObserved smartBot (("Tudo certo.").data)).opState =
        OpState.lightSleep := by
  refine ⟨rfl, rfl, rfl, rfl⟩

/-- C8: when a wake signal arrives in deep sleep and the backend never becomes
responsive within the wake timeout, `wake_from_deep_sleep` reports the failure
to its caller by returning false (it does not retry), and the wake handler
aborts: the state remains deep sleep, speech capture is not started, and
exactly one backend wake attempt is made. -/
theorem deep_sleep_wake_failure_aborts (bot : VBot) (startServiceOk whisperStartOk : Bool)
    (h : bot.opState = OpState.deepSleep) :
    wake_from_deep_sleep false startServiceOk false = false ∧
      (onWakeWordDetected bot (wake_from_deep_sleep false startServiceOk false)
          whisperStartOk).1.opState = OpState.deepSleep ∧
      (onWakeWordDetected bot (wake_from_deep_sleep false startServiceOk false)
          whisperStartOk).1.whisperRunning = bot.whisperRunning ∧
      (∀ r : Bool, WakeAct.startCapture r ∉
        (onWakeWordDetected bot (wake_from_deep_sleep false startServiceOk false)
          whisperStartOk).2) ∧
      ((onWakeWordDetected bot (wake_from_deep_sleep false startServiceOk false)
          whisperStartOk).2.count (WakeAct.wakeBackend false)) = 1 := by
  have hw : wake_from_deep_sleep false startServiceOk false = false := by
    cases startServiceOk <;> rfl
  rw [hw]
  have hcond : ¬(bot.opState = OpState.listening ∨ bot.opState = OpState.processing ∨
      bot.opState = OpState.speaking) := by
    simp [h]
  unfold onWakeWordDetected
  rw [if_neg hcond, if_pos h]
  refine ⟨rfl, h, rfl, ?_, ?_⟩
  · intro r
    simp
  · simp [List.count_cons]

/-- C8 (witness): concrete instance from `deepBot`. -/
theorem deep_sleep_wake_failure_aborts_witness :
    wake_from_deep_sleep false true false = false ∧
      (onWakeWordDetected deepBot (wake_from_deep_sleep false true false)
          true).1.opState = OpState.deepSleep ∧
      (onWakeWordDetected deepBot (wake_from_deep_sleep false true false)
          true).1.whisperRunning = deepBot.whisperRunning ∧
      (∀ r : Bool, WakeAct.startCapture r ∉
        (onWakeWordDetected deepBot (wake_from_deep_sleep false true false)
          true).2) ∧
      ((onWakeWordDetected deepBot (wake_from_deep_sleep false true false)
          true).2.count (WakeAct.wakeBackend false)) = 1 :=
  deep_sleep_wake_failure_aborts deepBot true true rfl

/-- C9 (counterexample): `flush` does not emit "whatever remains
unconditionally", and `None` is not returned only for the empty buffer: on the
nonempty, all-whitespace buffer `" "` it returns `None` and leaves the buffer
in place. -/
theorem flush_none_on_whitespace_buffer :
    (flush [' ']).1 = none ∧ ([' '] : List Char) ≠ [] := by
  decide

/-- C9 (amended): no sentence returned by `add_chunk` is shorter than the
configured minimum length; `flush` emits the whitespace-trimmed remainder
whenever the buffer contains any non-whitespace character, and returns the
nothing-to-flush signal `None` when the stripped buffer is empty (in
particular for the empty buffer), leaving the buffer unchanged. -/
theorem add_chunk_min_length_flush_rest :
    (∀ (m : Nat) (buffer chunk s : List Char),
        s ∈ (add_chunk m buffer chunk).1 → m ≤ s.length) ∧
      (∀ b : List Char, stripWs b ≠ [] → flush b = (some (stripWs b), [])) ∧
      (∀ b : List Char, stripWs b = [] → flush b = (none, b)) := by
  refine ⟨fun m buffer chunk s hs => scanLoop_min_length m _ _ s hs, ?_, ?_⟩
  · intro b hb
    unfold flush
    rw [if_neg (by simp [hb])]
  · intro b hb
    unfold flush
    rw [if_pos (by simp [hb])]

/-- C9 (witness): concrete instances of all three parts. -/
theorem add_chunk_min_length_flush_rest_witness :
    3 ≤ ((("ab.").data) : List Char).length ∧
      flush ((" a ").data) = (some (("a").data), []) ∧
      flush [] = (none, []) :=
  ⟨add_chunk_min_length_flush_rest.1 3 [] (("ab.").data) (("ab.").data)
      (by decide),
    add_chunk_min_length_flush_rest.2.1 ((" a ").data) (by decide),
    add_chunk_min_length_flush_rest.2.2 [] (by decide)⟩

/-- C10: `is_dismissal` returns `False` on empty (falsy) input without
raising, never changes the detector's pattern state, and — being a pure
function of that unchanged state — yields the same result when applied twice
to the same text. -/
theorem is_dismissal_falsy_and_stateless :
    (∀ d : DismissalDetector, is_dismissal d [] = (false, d)) ∧
      (∀ (d : DismissalDetector) (t : List Char), (is_dismissal d t).2 = d) ∧
      (∀ (d : DismissalDetector) (t : List Char),
        (is_dismissal (is_dismissal d t).2 t).1 = (is_dismissal d t).1) := by
  have hsnd : ∀ (d : DismissalDetector) (t : List Char), (is_dismissal d t).2 = d := by
    intro d t
    unfold is_dismissal
    by_cases ht : t.isEmpty
    · rw [if_pos ht]
    · rw [if_neg ht]
  exact ⟨fun d => rfl, hsnd, fun d t => by rw [hsnd d t]⟩
